import Mathlib

/-!
Shallow embedding of the `leptos_reactive` core (files `runtime.rs` and
`scope.rs`): the `Runtime` with its subscriber stack and scope arena, the
`ScopeState` ownership node, and every handle-mediated access operation.

Modelling conventions:
* Rust interior mutability (`RefCell`) becomes explicit state passing; where
  the source's borrow discipline itself panics at runtime (a `borrow_mut`
  while a shared borrow guard is still live), the embedding returns the
  corresponding `BorrowMutError` diagnostic.
* A `panic!` becomes `Except.error msg`, where `msg` renders the same
  diagnostic text as the source format string (ids printed in their Debug
  form, `ScopeId(n)`).
* `slotmap::SlotMap` is modelled by a monotone-key association list: `insert`
  hands out a fresh key, `remove` deletes the entry, keys are never reused —
  the observable behaviour of generational keys in a single runtime.
* `std::any` type erasure is modelled by a runtime type tag (`TypeRep`);
  `downcast_ref::<SignalState<T>>` succeeds exactly when the stored tag
  matches the requested one, and `std::any::type_name::<T>` is the tag's
  rendered name.
-/

abbrev ScopeId := Nat
abbrev SignalId := Nat
abbrev MemoId := Nat
abbrev EffectId := Nat

/-- Runtime type tags standing in for Rust types stored behind `dyn Any`. -/
inductive TypeRep : Type
  | i32 : TypeRep
  | string : TypeRep
  | unit : TypeRep
  deriving DecidableEq

/-- `std::any::type_name` for a tag. -/
def typeName : TypeRep → String
  | TypeRep.i32 => "i32"
  | TypeRep.string => "alloc::string::String"
  | TypeRep.unit => "()"

/-- A `Box<dyn Any>` context value: only its runtime type tag is observable
through the type-keyed context map. -/
structure DynAny : Type where
  ty : TypeRep
  deriving DecidableEq

/-- Modelled from the spec: `SignalState<T>` (not under `src/`) holds a value of
type `T` and a subscriber list; behind `Box<dyn AnySignal>` only its runtime
type identity is observable to the operations verified here, so the erased box
is modelled by its stored type tag. -/
structure AnySignal : Type where
  ty : TypeRep
  deriving DecidableEq

/-- Modelled from the spec: `MemoState<T>` (not under `src/`), erased behind
`Box<dyn AnyMemo>`; modelled by its stored type tag. -/
structure AnyMemo : Type where
  ty : TypeRep
  deriving DecidableEq

/-- Modelled from the spec: `EffectState<T>` (not under `src/`), erased behind
`Box<dyn AnyEffect>`; modelled by its stored type tag. -/
structure AnyEffect : Type where
  ty : TypeRep
  deriving DecidableEq

/-- Modelled from the spec: a `Subscriber` (not under `src/`) is a reference to
either an Effect or a Memo, identified by (scope handle, local entity handle).
The stack operations treat it as an opaque value. -/
inductive Subscriber : Type
  | effect : ScopeId × EffectId → Subscriber
  | memo : ScopeId × MemoId → Subscriber
  deriving DecidableEq

/-- Model of `slotmap::SlotMap`: an association list with a monotone fresh-key
counter. The invariant `keys_lt` records that every stored key was handed out
by `insert`, so a fresh key never collides with a stored one. -/
structure SlotMap (α : Type) : Type where
  nextKey : Nat
  entries : List (Nat × α)
  keys_lt : ∀ p ∈ entries, p.1 < nextKey

def SlotMap.empty {α : Type} : SlotMap α :=
  { nextKey := 0, entries := [], keys_lt := by intro p hp; cases hp }

def SlotMap.get {α : Type} (m : SlotMap α) (k : Nat) : Option α :=
  (m.entries.find? (fun p => p.1 == k)).map (fun p => p.2)

/-- `SlotMap::insert`: returns the fresh key and the extended map. -/
def SlotMap.insert {α : Type} (m : SlotMap α) (v : α) : Nat × SlotMap α :=
  (m.nextKey,
    { nextKey := m.nextKey + 1
      entries := m.entries ++ [(m.nextKey, v)]
      keys_lt := by
        intro p hp
        rcases List.mem_append.mp hp with h | h
        · exact Nat.lt_succ_of_lt (m.keys_lt p h)
        · rcases List.mem_singleton.mp h with rfl
          exact Nat.lt_succ_self _ })

/-- `SlotMap::remove` (the removed value is dropped by the caller). -/
def SlotMap.remove {α : Type} (m : SlotMap α) (k : Nat) : SlotMap α :=
  { nextKey := m.nextKey
    entries := m.entries.filter (fun p => p.1 != k)
    keys_lt := by
      intro p hp
      exact m.keys_lt p (List.mem_of_mem_filter hp) }

/-- `ScopeState` from `scope.rs`: parent pointer, type-keyed context map,
child-scope list, and the three local entity arenas. The Rust `parent:
Option<Scope>` pairs the (unique) runtime with the id; with a single runtime
only the id matters. -/
structure ScopeState : Type where
  parent : Option ScopeId
  contexts : List (TypeRep × DynAny)
  children : List ScopeId
  signals : SlotMap AnySignal
  memos : SlotMap AnyMemo
  effects : SlotMap AnyEffect

/-- `ScopeState::new(parent)`: parent as given, everything else default. -/
def ScopeState.new (parent : Option ScopeId) : ScopeState :=
  { parent := parent
    contexts := []
    children := []
    signals := SlotMap.empty
    memos := SlotMap.empty
    effects := SlotMap.empty }

/-- `Runtime` from `runtime.rs`: the subscriber stack and the scope arena.
The top of the Rust `Vec` stack is the last list element. -/
structure Runtime : Type where
  stack : List Subscriber
  scopes : SlotMap ScopeState

/-- `Runtime::new` / `Default::default`. -/
def Runtime.new : Runtime :=
  { stack := [], scopes := SlotMap.empty }

/-- Debug rendering of a `ScopeId`. -/
def scopeIdText (n : ScopeId) : String :=
  "ScopeId(" ++ toString n ++ ")"

/-- Debug rendering of a `(ScopeId, SignalId)` handle. -/
def sigHandleText (id : ScopeId × SignalId) : String :=
  "(" ++ scopeIdText id.1 ++ ", SignalId(" ++ toString id.2 ++ "))"

/-- Debug rendering of a `(ScopeId, MemoId)` handle. -/
def memoHandleText (id : ScopeId × MemoId) : String :=
  "(" ++ scopeIdText id.1 ++ ", MemoId(" ++ toString id.2 ++ "))"

/-- Debug rendering of a `(ScopeId, EffectId)` handle. -/
def effHandleText (id : ScopeId × EffectId) : String :=
  "(" ++ scopeIdText id.1 ++ ", EffectId(" ++ toString id.2 ++ "))"

/-- The dangling-handle panic message (source: a format string interpolating
the Debug form of the id after the words before it). -/
def locateMsg (t : String) : String :=
  "could not locate " ++ t

/-- The failed-downcast panic message of `Runtime::signal`. -/
def convertMsgSig (id : ScopeId × SignalId) (T : TypeRep) : String :=
  "could not convert " ++ sigHandleText id ++ " to SignalState<" ++ typeName T ++ ">"

/-- The failed-downcast panic message of `Runtime::memo`. -/
def convertMsgMemo (id : ScopeId × MemoId) (T : TypeRep) : String :=
  "could not convert " ++ memoHandleText id ++ " to MemoState<" ++ typeName T ++ ">"

/-- `Runtime::scope`: resolve a scope handle; panic when it dangles. The Rust
version applies a continuation to the `ScopeState`; the embedding returns the
state and lets callers compose. -/
def Runtime.scope (rt : Runtime) (id : ScopeId) : Except String ScopeState :=
  match SlotMap.get rt.scopes id with
  | some s => Except.ok s
  | none => Except.error (locateMsg (scopeIdText id))

/-- `Runtime::any_signal`: resolve the scope, then the local signal id. -/
def Runtime.any_signal (rt : Runtime) (id : ScopeId × SignalId) :
    Except String AnySignal :=
  (rt.scope id.1).bind (fun ss =>
    match SlotMap.get ss.signals id.2 with
    | some n => Except.ok n
    | none => Except.error (locateMsg (sigHandleText id)))

/-- `Runtime::any_memo`: resolve the scope, then the local memo id. -/
def Runtime.any_memo (rt : Runtime) (id : ScopeId × MemoId) :
    Except String AnyMemo :=
  (rt.scope id.1).bind (fun ss =>
    match SlotMap.get ss.memos id.2 with
    | some n => Except.ok n
    | none => Except.error (locateMsg (memoHandleText id)))

/-- `Runtime::any_effect`: resolve the scope, then the local effect id. -/
def Runtime.any_effect (rt : Runtime) (id : ScopeId × EffectId) :
    Except String AnyEffect :=
  (rt.scope id.1).bind (fun ss =>
    match SlotMap.get ss.effects id.2 with
    | some n => Except.ok n
    | none => Except.error (locateMsg (effHandleText id)))

/-- `Runtime::signal`: typed access; the downcast to `SignalState<T>` succeeds
exactly when the stored tag is `T`, else the convert panic. -/
def Runtime.signal (rt : Runtime) (id : ScopeId × SignalId) (T : TypeRep) :
    Except String AnySignal :=
  (rt.any_signal id).bind (fun n =>
    if n.ty = T then Except.ok n else Except.error (convertMsgSig id T))

/-- `Runtime::memo`: typed access; the downcast to `MemoState<T>` succeeds
exactly when the stored tag is `T`, else the convert panic. -/
def Runtime.memo (rt : Runtime) (id : ScopeId × MemoId) (T : TypeRep) :
    Except String AnyMemo :=
  (rt.any_memo id).bind (fun n =>
    if n.ty = T then Except.ok n else Except.error (convertMsgMemo id T))

/-- `Runtime::running_effect`: `self.stack.borrow().last().cloned()`. -/
def Runtime.running_effect (rt : Runtime) : Option Subscriber :=
  rt.stack.getLast?

/-- `Runtime::push_stack`: `Vec::push` appends at the top end. -/
def Runtime.push_stack (rt : Runtime) (s : Subscriber) : Runtime :=
  { rt with stack := rt.stack ++ [s] }

/-- `Runtime::pop_stack`: `Vec::pop` drops the top element; on an empty vector
it is a no-op (Rust `pop` returns `None`, the result is discarded). -/
def Runtime.pop_stack (rt : Runtime) : Runtime :=
  { rt with stack := rt.stack.dropLast }

/-- `Runtime::remove_scope`: remove the entry from the scope arena and drop it. -/
def Runtime.remove_scope (rt : Runtime) (id : ScopeId) : Runtime :=
  { rt with scopes := SlotMap.remove rt.scopes id }

/-- `Runtime::untrack`: swap in an empty stack, run `f` (which may mutate the
runtime), then put the saved stack back, discarding whatever stack `f` left. -/
def Runtime.untrack {α : Type} (rt : Runtime) (f : Runtime → α × Runtime) :
    α × Runtime :=
  let prev_stack := rt.stack
  let res := f { rt with stack := [] }
  (res.1, { res.2 with stack := prev_stack })

/-- The `RefCell` re-entrancy panic raised by `borrow_mut` while a shared
borrow is live. -/
def borrowMutErrorMsg : String := "already borrowed: BorrowMutError"

/-- `Scope::dispose`: look the scope up (panicking if it dangles) and loop over
its `children` list calling `remove_scope` on each. `Runtime::scope` holds the
`scopes.borrow()` guard across the closure (the `if let` scrutinee temporary
lives through the branch, since the bound `&ScopeState` borrows from it), and
`remove_scope` calls `scopes.borrow_mut()` on the same `RefCell`: with a
non-empty children list the first iteration panics with a `BorrowMutError`
before removing anything; with an empty list the loop body never runs and the
runtime is unchanged. On no path is any entry removed — in particular not the
scope's own. -/
def Scope.dispose (rt : Runtime) (id : ScopeId) : Except String Runtime :=
  (rt.scope id).bind (fun ss =>
    match ss.children with
    | [] => Except.ok rt
    | _ :: _ => Except.error borrowMutErrorMsg)

/-- `ScopeDisposer`: a boxed closure over the runtime; running it may panic
(it calls `Scope::dispose`). -/
structure ScopeDisposer : Type where
  run : Runtime → Except String Runtime

/-- `Runtime::create_scope`: insert `ScopeState::new(parent)` into the arena,
run `f` on a `Scope` carrying the fresh id, and return a disposer closing over
that id. The embedding returns the fresh id explicitly (in Rust it travels
inside the `Scope` value given to `f` and captured by the disposer). -/
def Runtime.create_scope (rt : Runtime) (f : ScopeId → Runtime → Runtime)
    (parent : Option ScopeId) : Runtime × ScopeId × ScopeDisposer :=
  let ins := SlotMap.insert rt.scopes (ScopeState.new parent)
  let id := ins.1
  let rt1 : Runtime := { rt with scopes := ins.2 }
  let rt2 := f id rt1
  (rt2, id, ⟨fun r => Scope.dispose r id⟩)

/-- `Scope::child_scope` as written in `scope.rs`: the call to
`create_scope(f, Some(self))` is commented out; the body runs `f` on the
receiving scope itself and returns a disposer wrapping an empty closure. -/
def Scope.child_scope (rt : Runtime) (id : ScopeId)
    (f : ScopeId → Runtime → Runtime) : Runtime × ScopeDisposer :=
  (f id rt, ⟨fun r => Except.ok r⟩)

/-! ### SlotMap lemmas -/

theorem List.find_append_fresh {α : Type} (l : List (Nat × α)) (k : Nat) (v : α)
    (h : ∀ p ∈ l, p.1 ≠ k) :
    (l ++ [(k, v)]).find? (fun p => p.1 == k) = some (k, v) := by
  induction l with
  | nil => simp [List.find?]
  | cons a as ih =>
      have ha : (a.1 == k) = false := by
        simp [h a (List.mem_cons_self _ _)]
      have ih' := ih (fun p hp => h p (List.mem_cons_of_mem _ hp))
      simpa only [List.cons_append, List.find?, ha] using ih'

/-- Reading back the key just handed out by `insert` yields the inserted value. -/
theorem SlotMap.get_insert_self {α : Type} (m : SlotMap α) (v : α) :
    SlotMap.get (m.insert v).2 (m.insert v).1 = some v := by
  unfold SlotMap.insert SlotMap.get
  rw [List.find_append_fresh]
  · rfl
  · intro p hp
    exact Nat.ne_of_lt (m.keys_lt p hp)

/-! ### Substring helper (used to show a diagnostic does not mention a name) -/

/-- Does `l` start with `s`? -/
def startsWithChars : List Char → List Char → Bool
  | _, [] => true
  | [], _ :: _ => false
  | a :: as, b :: bs => a == b && startsWithChars as bs

/-- Does `l` contain `s` as a contiguous run? -/
def hasSubChars : List Char → List Char → Bool
  | l, s =>
    if startsWithChars l s then true
    else
      match l with
      | [] => false
      | _ :: as => hasSubChars as s

/-- Does string `s` contain `sub` as a substring? -/
def strHasSub (s sub : String) : Bool :=
  hasSubChars s.toList sub.toList

/-! ### Concrete states for the counterexample / bug-evaluation theorems -/

/-- An erased signal whose stored value has Rust type `String`. -/
def sigStr : AnySignal := { ty := TypeRep.string }

/-- A root scope state holding one signal (local id 0) and nothing else. -/
def ssOneSig : ScopeState :=
  { parent := none
    contexts := []
    children := []
    signals := (SlotMap.insert SlotMap.empty sigStr).2
    memos := SlotMap.empty
    effects := SlotMap.empty }

/-- A runtime with the single scope `ssOneSig` at id 0. -/
def rtOneScope : Runtime :=
  { stack := [], scopes := (SlotMap.insert SlotMap.empty ssOneSig).2 }

/-- Scope state with a given parent and children list, no entities. -/
def ssTree (parent : Option ScopeId) (children : List ScopeId) : ScopeState :=
  { parent := parent
    contexts := []
    children := children
    signals := SlotMap.empty
    memos := SlotMap.empty
    effects := SlotMap.empty }

/-- A runtime holding a three-level chain: scope 0 has child 1, scope 1 has
child 2 (the children lists populated the way the spec intends them to be). -/
def rtChain : Runtime :=
  { stack := []
    scopes :=
      (SlotMap.insert
        (SlotMap.insert
          (SlotMap.insert SlotMap.empty (ssTree none [1])).2
          (ssTree (some 0) [2])).2
        (ssTree (some 1) [])).2 }

/-- A marker subscriber derived from a scope id. -/
def subMark (i : ScopeId) : Subscriber := Subscriber.effect (i, 0)

/-! ### Claim theorems -/

/-- Claim C1 (evaluation at the failing input): disposing the only scope of
`rtOneScope` leaves the runtime unchanged — the scope's own arena entry stays,
and the signal handle (0, 0) created directly in the disposed scope still
resolves successfully afterwards instead of failing fatally. -/
theorem c1_dispose_leaves_signal_accessible :
    Scope.dispose rtOneScope 0 = Except.ok rtOneScope ∧
    Runtime.any_signal rtOneScope (0, 0) = Except.ok sigStr ∧
    Runtime.scope rtOneScope 0 = Except.ok ssOneSig :=
  ⟨rfl, rfl, rfl⟩

/-- Claim C2 (evaluation at the failing input): disposing scope 0 of the
three-level chain panics with the `RefCell` `BorrowMutError` on the first
child-removal iteration, so nothing is removed: scope 0's own entry, the
direct child 1, and the grandchild 2 all still resolve in the runtime the
panic left behind — dispose neither removes the scope's own entry nor
disposes any descendant, let alone recursively. -/
theorem c2_dispose_panics_removing_nothing :
    Scope.dispose rtChain 0 = Except.error borrowMutErrorMsg ∧
    Runtime.scope rtChain 0 = Except.ok (ssTree none [1]) ∧
    Runtime.scope rtChain 1 = Except.ok (ssTree (some 0) [2]) ∧
    Runtime.scope rtChain 2 = Except.ok (ssTree (some 1) []) :=
  ⟨rfl, rfl, rfl, rfl⟩

/-- Claim C3 (evaluation at the failing input): `child_scope` on scope 0 runs
the closure on the parent's own id (the pushed marker is `subMark 0`, not a
fresh id), allocates nothing in the scope arena, and returns a disposer whose
closure is a no-op. -/
theorem c3_child_scope_runs_f_on_parent :
    Scope.child_scope rtOneScope 0 (fun i r => r.push_stack (subMark i)) =
      ({ rtOneScope with stack := [subMark 0] }, ⟨fun r => Except.ok r⟩) ∧
    (Scope.child_scope rtOneScope 0 (fun i r => r.push_stack (subMark i))).1.scopes.nextKey
      = rtOneScope.scopes.nextKey :=
  ⟨rfl, rfl⟩

/-- Claim C4 (evaluation at the failing input): creating a scope with parent 0
hands out the fresh id 1 whose state records parent 0, but scope 0's children
list is still empty afterwards — the new scope is never registered as a child
of its parent. -/
theorem c4_child_not_registered_in_parent :
    (Runtime.create_scope rtOneScope (fun _ r => r) (some 0)).2.1 = 1 ∧
    SlotMap.get (Runtime.create_scope rtOneScope (fun _ r => r) (some 0)).1.scopes 1
      = some (ScopeState.new (some 0)) ∧
    (SlotMap.get (Runtime.create_scope rtOneScope (fun _ r => r) (some 0)).1.scopes 0).map
        ScopeState.children = some [] :=
  ⟨rfl, rfl, rfl⟩

/-- Claim C5: `untrack` runs `f` on a runtime whose subscriber stack is empty
(so `running_effect` is `none` there, whatever the ambient stack was), returns
`f`'s result unchanged, and restores the prior stack after returning. -/
theorem c5_untrack_spec {α : Type} (rt : Runtime) (f : Runtime → α × Runtime) :
    Runtime.running_effect { rt with stack := [] } = none ∧
    (Runtime.untrack rt f).1 = (f { rt with stack := [] }).1 ∧
    (Runtime.untrack rt f).2.stack = rt.stack :=
  ⟨rfl, rfl, rfl⟩

/-- Claim C6: the subscriber stack is strict LIFO — after `push_stack s` the
running effect is `some s`, `pop_stack` right after `push_stack s` restores
the runtime exactly, and with an empty stack `running_effect` is `none`. -/
theorem c6_stack_lifo (rt : Runtime) (s : Subscriber) :
    (rt.push_stack s).running_effect = some s ∧
    (rt.push_stack s).pop_stack = rt ∧
    (rt.stack = [] → rt.running_effect = none) := by
  refine ⟨?_, ?_, ?_⟩
  · simp [Runtime.push_stack, Runtime.running_effect]
  · show ({ rt with stack := (rt.stack ++ [s]).dropLast } : Runtime) = rt
    rw [List.dropLast_concat]
  · intro h
    simp [Runtime.running_effect, h]

/-- Witness for C6 at a concrete runtime and subscriber. -/
theorem c6_stack_lifo_witness :
    (Runtime.new.push_stack (subMark 0)).running_effect = some (subMark 0) ∧
    (Runtime.new.push_stack (subMark 0)).pop_stack = Runtime.new ∧
    Runtime.new.running_effect = none :=
  ⟨(c6_stack_lifo Runtime.new (subMark 0)).1,
   (c6_stack_lifo Runtime.new (subMark 0)).2.1,
   (c6_stack_lifo Runtime.new (subMark 0)).2.2 rfl⟩

/-- Claim C7: every lookup through a handle that does not resolve fails with
the dangling-handle diagnostic naming the unresolved id (and therefore never
returns a value): a dangling scope id makes `scope` and all three `any_*`
accessors fail naming the scope id; a live scope with a dangling local id
makes the corresponding accessor fail naming the full two-part handle. -/
theorem c7_dangling_handle_fatal (rt : Runtime) (sid lid : Nat) :
    (SlotMap.get rt.scopes sid = none →
      rt.scope sid = Except.error (locateMsg (scopeIdText sid)) ∧
      rt.any_signal (sid, lid) = Except.error (locateMsg (scopeIdText sid)) ∧
      rt.any_memo (sid, lid) = Except.error (locateMsg (scopeIdText sid)) ∧
      rt.any_effect (sid, lid) = Except.error (locateMsg (scopeIdText sid))) ∧
    (∀ ss, SlotMap.get rt.scopes sid = some ss →
      (SlotMap.get ss.signals lid = none →
        rt.any_signal (sid, lid) = Except.error (locateMsg (sigHandleText (sid, lid)))) ∧
      (SlotMap.get ss.memos lid = none →
        rt.any_memo (sid, lid) = Except.error (locateMsg (memoHandleText (sid, lid)))) ∧
      (SlotMap.get ss.effects lid = none →
        rt.any_effect (sid, lid) = Except.error (locateMsg (effHandleText (sid, lid))))) := by
  constructor
  · intro h
    refine ⟨?_, ?_, ?_, ?_⟩ <;>
      simp [Runtime.scope, Runtime.any_signal, Runtime.any_memo, Runtime.any_effect,
        h, Except.bind]
  · intro ss hss
    refine ⟨?_, ?_, ?_⟩ <;> intro h <;>
      simp [Runtime.scope, Runtime.any_signal, Runtime.any_memo, Runtime.any_effect,
        hss, h, Except.bind]

/-- Witness for C7: a dangling scope id on the empty runtime, and a dangling
memo id inside the live scope of `rtOneScope`. -/
theorem c7_dangling_handle_fatal_witness :
    Runtime.scope Runtime.new 0 = Except.error (locateMsg (scopeIdText 0)) ∧
    Runtime.any_memo rtOneScope (0, 5) = Except.error (locateMsg (memoHandleText (0, 5))) :=
  ⟨((c7_dangling_handle_fatal Runtime.new 0 0).1 rfl).1,
   ((c7_dangling_handle_fatal rtOneScope 0 5).2 ssOneSig rfl).2.1 rfl⟩

/-- Claim C8 counterexample: at the concrete mismatching access — scope 0 of
`rtOneScope` stores a signal of type `alloc::string::String` and the access
requests `i32` — the full diagnostic is the convert message, and the actual
stored type's name does not occur anywhere in it, refuting the claim that the
diagnostic names both the expected and the actual type. -/
theorem c8_actual_type_not_in_diagnostic :
    Runtime.signal rtOneScope (0, 0) TypeRep.i32
      = Except.error "could not convert (ScopeId(0), SignalId(0)) to SignalState<i32>" ∧
    strHasSub "could not convert (ScopeId(0), SignalId(0)) to SignalState<i32>"
      (typeName sigStr.ty) = false := by
  exact ⟨rfl, by decide⟩

/-- Claim C8 (amended): a typed access whose stored tag differs from the
requested type fails fatally with a diagnostic naming the handle and the
expected (requested) type. -/
theorem c8_mismatch_fatal (rt : Runtime) (sid lid : Nat) (T : TypeRep) :
    (∀ n, rt.any_signal (sid, lid) = Except.ok n → n.ty ≠ T →
      rt.signal (sid, lid) T = Except.error (convertMsgSig (sid, lid) T)) ∧
    (∀ n, rt.any_memo (sid, lid) = Except.ok n → n.ty ≠ T →
      rt.memo (sid, lid) T = Except.error (convertMsgMemo (sid, lid) T)) := by
  constructor <;> intro n hn hty <;>
    simp [Runtime.signal, Runtime.memo, hn, hty, Except.bind]

/-- Witness for C8 (amended) at the concrete mismatching access. -/
theorem c8_mismatch_fatal_witness :
    Runtime.signal rtOneScope (0, 0) TypeRep.i32
      = Except.error (convertMsgSig (0, 0) TypeRep.i32) :=
  (c8_mismatch_fatal rtOneScope 0 0 TypeRep.i32).1 sigStr rfl (by decide)

/-- Claim C9: `pop_stack` on a runtime with an empty subscriber stack is a
total no-op — the runtime is unchanged and the stack stays empty. -/
theorem c9_pop_on_empty_noop (rt : Runtime) (h : rt.stack = []) :
    rt.pop_stack = rt ∧ rt.pop_stack.stack = [] := by
  have hd : rt.stack.dropLast = rt.stack := by rw [h, List.dropLast_nil]
  constructor
  · show ({ rt with stack := rt.stack.dropLast } : Runtime) = rt
    rw [hd]
  · show rt.stack.dropLast = []
    rw [hd, h]

/-- Witness for C9 on the fresh runtime. -/
theorem c9_pop_on_empty_noop_witness :
    Runtime.new.pop_stack = Runtime.new ∧ Runtime.new.pop_stack.stack = [] :=
  c9_pop_on_empty_noop Runtime.new rfl

/-- Claim C10: `create_scope` hands out the arena's fresh id, runs `f` exactly
once on that id over the runtime with the new state already inserted, the
inserted state is `ScopeState.new parent` (parent as given; context map,
children list, and all three entity arenas empty), and the returned disposer's
closure disposes exactly that new scope. -/
theorem c10_create_scope_spec (rt : Runtime) (f : ScopeId → Runtime → Runtime)
    (p : Option ScopeId) :
    (rt.create_scope f p).2.1 = rt.scopes.nextKey ∧
    (rt.create_scope f p).1
      = f rt.scopes.nextKey
          { rt with scopes := (SlotMap.insert rt.scopes (ScopeState.new p)).2 } ∧
    SlotMap.get (SlotMap.insert rt.scopes (ScopeState.new p)).2 rt.scopes.nextKey
      = some (ScopeState.new p) ∧
    (ScopeState.new p).parent = p ∧
    (ScopeState.new p).contexts = [] ∧
    (ScopeState.new p).children = [] ∧
    (ScopeState.new p).signals = SlotMap.empty ∧
    (ScopeState.new p).memos = SlotMap.empty ∧
    (ScopeState.new p).effects = SlotMap.empty ∧
    (rt.create_scope f p).2.2.run = fun r => Scope.dispose r rt.scopes.nextKey := by
  refine ⟨rfl, rfl, ?_, rfl, rfl, rfl, rfl, rfl, rfl, rfl⟩
  exact SlotMap.get_insert_self rt.scopes (ScopeState.new p)
